import Mathlib

/-
  Verification of the admission-gated reverse proxy (test proxy server,
  src/unnamed/part_000) against its natural-language specification.

  The proxy receives HTTP requests, computes the length of the
  JSON-stringified header collection, and classifies the request by two
  buffer-size tiers before relaying it to the backend. WebSocket upgrade
  requests are handled by a separate upgrade handler. Error callbacks
  synthesize 502 / 500 responses or silently end the socket.

  Header collections are modelled as ordered lists of name-value string
  pairs; the JavaScript string length of the serialized form is modelled
  as the character count of the Lean string.
-/

namespace NginxProxySim

/-- Header collection of an inbound request: ordered name-value pairs,
as serialized by JSON.stringify of a flat string object. -/
abbrev HeaderCollection := List (String × String)

/-- Hexadecimal digit character used by the \u escape of JSON.stringify. -/
def hexDigit (n : Nat) : Char :=
  if n < 10 then Char.ofNat (48 + n) else Char.ofNat (87 + n)

/-- Escape of a single character, following JSON.stringify for strings. -/
def jsonEscapeChar (c : Char) : List Char :=
  if c = '"' then ['\\', '"']
  else if c = '\\' then ['\\', '\\']
  else if c = '\x08' then ['\\', 'b']
  else if c = '\x0c' then ['\\', 'f']
  else if c = '\n' then ['\\', 'n']
  else if c = '\r' then ['\\', 'r']
  else if c = '\t' then ['\\', 't']
  else if c.toNat < 32 then
    ['\\', 'u', '0', '0', hexDigit (c.toNat / 16), hexDigit (c.toNat % 16)]
  else [c]

/-- Escape of a character list. -/
def jsonEscapeList : List Char → List Char
  | [] => []
  | c :: cs => jsonEscapeChar c ++ jsonEscapeList cs

/-- Escape of a string, per JSON.stringify. -/
def jsonEscape (s : String) : String := String.mk (jsonEscapeList s.data)

/-- A JSON string literal: escaped content between double quotes. -/
def jsonQuote (s : String) : String := "\"" ++ jsonEscape s ++ "\""

/-- One key-value pair of the serialized object. -/
def jsonStringifyPair (k v : String) : String := jsonQuote k ++ ":" ++ jsonQuote v

/-- Comma-joined pairs of the serialized object. -/
def jsonStringifyBody : HeaderCollection → String
  | [] => ""
  | [p] => jsonStringifyPair p.1 p.2
  | p :: q :: rest => jsonStringifyPair p.1 p.2 ++ "," ++ jsonStringifyBody (q :: rest)

/-- JSON.stringify of the header collection (compact form, as used for
the size computation in the request handler). -/
def jsonStringify (h : HeaderCollection) : String :=
  "\x7b" ++ jsonStringifyBody h ++ "\x7d"

/-- The HeaderSizeMetric: JSON.stringify of the headers, then string length.
Mirrors the source line computing the headerSize constant. -/
def headerSize (h : HeaderCollection) : Nat := (jsonStringify h).length

/-- Default nginx tier: client header buffer size, 1k. -/
def defaultHeaderBufferSize : Nat := 1024

/-- Default nginx tier: large client header buffers, 4 times 8k. -/
def defaultLargeBuffers : Nat := 4 * 8 * 1024

/-- Expanded tier: client header buffer size, 16k. -/
def fixedHeaderBufferSize : Nat := 16 * 1024

/-- Expanded tier: large client header buffers, 16 times 32k. -/
def fixedLargeBuffers : Nat := 16 * 32 * 1024

/-- Admission verdict of a request, per the two-tier policy. -/
inductive AdmissionVerdict where
  | Accepted
  | RejectedDefault
  | RejectedExpanded
deriving DecidableEq

/-- The admission classification of a request of the given header size,
following the branch structure of the request handler: first the default
tier double comparison, then the expanded tier comparison. -/
def admitVerdict (size : Nat) : AdmissionVerdict :=
  if size > defaultHeaderBufferSize ∧ size > defaultLargeBuffers then
    AdmissionVerdict.RejectedDefault
  else if size > fixedLargeBuffers then
    AdmissionVerdict.RejectedExpanded
  else
    AdmissionVerdict.Accepted

/-- A synthetic response written by the proxy itself: status code,
content type header, body. -/
structure SyntheticResponse where
  status : Nat
  contentType : String
  body : String
deriving DecidableEq

/-- Body of the default-tier rejection response, verbatim from the source. -/
def body400Default : String :=
  "<html>\n<head><title>400 Request Header Or Cookie Too Large</title></head>\n<body>\n<center><h1>400 Bad Request</h1></center>\n<center>Request Header Or Cookie Too Large</center>\n<hr><center>nginx/1.28.0</center>\n</body>\n</html>"

/-- Body of the expanded-tier rejection response, verbatim from the source. -/
def body400Expanded : String :=
  "<html>\n<head><title>400 Request Header Or Cookie Too Large</title></head>\n<body>\n<center><h1>400 Bad Request</h1></center>\n<center>Request Header Or Cookie Too Large (even with increased buffers)</center>\n<hr><center>nginx/1.28.0</center>\n</body>\n</html>"

/-- The default-tier rejection response. -/
def resp400Default : SyntheticResponse := ⟨400, "text/html", body400Default⟩

/-- The expanded-tier rejection response. -/
def resp400Expanded : SyntheticResponse := ⟨400, "text/html", body400Expanded⟩

/-- The gateway failure response written by the error callback of the
HTTP relay call. -/
def resp502 : SyntheticResponse := ⟨502, "text/plain", "Bad Gateway: Could not proxy request"⟩

/-- The internal fault response written by the proxy-level error handler. -/
def resp500 : SyntheticResponse := ⟨500, "text/plain", "Internal Server Error: Proxy failed"⟩

/-- What a connection handler does with an inbound request: either write a
synthetic response and return, or hand the request to the relay
(a proxy.web or proxy.ws call, which attempts a backend connection). -/
inductive ConnAction where
  | respond (r : SyntheticResponse)
  | relay
deriving DecidableEq

/-- The plain HTTP request handler: computes the header size metric,
rejects with a synthetic 400 under one of the two tiers, or relays. -/
def handleRequest (h : HeaderCollection) : ConnAction :=
  if headerSize h > defaultHeaderBufferSize ∧ headerSize h > defaultLargeBuffers then
    ConnAction.respond resp400Default
  else if headerSize h > fixedLargeBuffers then
    ConnAction.respond resp400Expanded
  else
    ConnAction.relay

/-- The WebSocket upgrade handler: logs and hands the request straight to
the relay (proxy.ws); it contains no admission check. -/
def handleUpgrade (_h : HeaderCollection) : ConnAction :=
  ConnAction.relay

/-- The connection action corresponding to each verdict. -/
def actionOfVerdict : AdmissionVerdict → ConnAction
  | AdmissionVerdict.Accepted => ConnAction.relay
  | AdmissionVerdict.RejectedDefault => ConnAction.respond resp400Default
  | AdmissionVerdict.RejectedExpanded => ConnAction.respond resp400Expanded

/-- The request handler is the admission classification followed by the
per-verdict action. -/
theorem handleRequest_eq_actionOfVerdict (h : HeaderCollection) :
    handleRequest h = actionOfVerdict (admitVerdict (headerSize h)) := by
  unfold handleRequest admitVerdict actionOfVerdict
  split
  · rfl
  · split <;> rfl

/-- An error reported by the relay library to a callback; the callbacks of
the source only log it, so it is opaque here (modelled as its code string,
such as ECONNREFUSED). -/
abbrev ProxyError := String

/-- State of the client response object visible to an error handler:
whether response headers have already been sent. -/
structure ResState where
  headersSent : Bool
deriving DecidableEq

/-- Actions an error handler can take on the client connection: write a
synthetic response, end the socket, or invoke the relay again. -/
inductive ErrorAction where
  | writeResponse (r : SyntheticResponse)
  | endSocket
  | invokeRelay
deriving DecidableEq

/-- The error callback passed to the proxy.web call of the HTTP path:
writes the 502 response unconditionally, ignoring the error and whether
response headers were already sent. -/
def proxyWebErrorCallback (_e : ProxyError) (_resHeadersSent : Bool) : List ErrorAction :=
  [ErrorAction.writeResponse resp502]

/-- The error callback passed to the proxy.ws call of the upgrade path:
ends the client socket, writing nothing. -/
def wsErrorCallback (_e : ProxyError) : List ErrorAction :=
  [ErrorAction.endSocket]

/-- The proxy-level error handler: writes the 500 response only when a
client response object is present and its headers were not yet sent;
otherwise it does nothing. -/
def proxyOnError (_e : ProxyError) (res : Option ResState) : List ErrorAction :=
  match res with
  | some r => if !r.headersSent then [ErrorAction.writeResponse resp500] else []
  | none => []

/-- Substring containment, witnessed by an explicit split. -/
def strContains (s pat : String) : Prop :=
  ∃ pre post, s = pre ++ pat ++ post

/-- A string of n copies of the letter a, used to build concrete oversized
header collections. -/
def repA (n : Nat) : String := String.mk (List.replicate n 'a')

/-- The letter a is not escaped by JSON.stringify. -/
theorem jsonEscapeChar_a : jsonEscapeChar 'a' = ['a'] := by decide

/-- Escaping a run of the letter a leaves it unchanged. -/
theorem jsonEscapeList_replicate_a (n : Nat) :
    jsonEscapeList (List.replicate n 'a') = List.replicate n 'a' := by
  induction n with
  | zero => rfl
  | succ m ih => simp [List.replicate_succ, jsonEscapeList, jsonEscapeChar_a, ih]

/-- The serialized size of a single-header collection whose value is a run
of n letters: the name k contributes 3 characters quoted, the value n plus
2 quotes, and the object punctuation 3. -/
theorem headerSize_repA (n : Nat) : headerSize [("k", repA n)] = n + 8 := by
  have hesc : jsonEscape (repA n) = repA n := by
    simp [jsonEscape, repA, jsonEscapeList_replicate_a]
  have hrep : (repA n).length = n := by
    simp [repA, String.length_mk]
  have hk : (jsonQuote "k").length = 3 := by decide
  simp only [headerSize, jsonStringify, jsonStringifyBody, jsonStringifyPair, jsonQuote, hesc,
    String.length_append, hrep, hk]
  have l1 : ("\x7b" : String).length = 1 := rfl
  have l2 : (":" : String).length = 1 := rfl
  have l3 : ("\x7d" : String).length = 1 := rfl
  have l4 : ("\"" : String).length = 1 := rfl
  have l5 : (jsonEscape "k").length = 1 := by decide
  omega

/-- The Admission Gate algorithm as worded by the specification, with its
literal threshold constants; the reference against which the source
handler is compared. -/
def admitSpec (size : Nat) : AdmissionVerdict :=
  if size > 1024 ∧ size > 32768 then AdmissionVerdict.RejectedDefault
  else if size > 524288 then AdmissionVerdict.RejectedExpanded
  else AdmissionVerdict.Accepted

/-- The source admission classification coincides with the spec-worded one. -/
theorem admit_eq_admitSpec (s : Nat) : admitVerdict s = admitSpec s := rfl

/-- Characterization of the default-tier rejection. -/
theorem admit_eq_rejectedDefault_iff (s : Nat) :
    admitVerdict s = AdmissionVerdict.RejectedDefault ↔ s > 32768 := by
  unfold admitVerdict defaultHeaderBufferSize defaultLargeBuffers fixedLargeBuffers
  split_ifs with h1 h2 <;> simp <;> omega

/-- Characterization of acceptance. -/
theorem admit_eq_accepted_iff (s : Nat) :
    admitVerdict s = AdmissionVerdict.Accepted ↔ s ≤ 32768 := by
  unfold admitVerdict defaultHeaderBufferSize defaultLargeBuffers fixedLargeBuffers
  split_ifs with h1 h2 <;> simp <;> omega

/-- The expanded-tier rejection branch is dead. -/
theorem admit_ne_rejectedExpanded (s : Nat) :
    admitVerdict s ≠ AdmissionVerdict.RejectedExpanded := by
  unfold admitVerdict defaultHeaderBufferSize defaultLargeBuffers fixedLargeBuffers
  split_ifs with h1 h2
  · simp
  · omega
  · simp

/-- C1: for every inbound plain-HTTP request, the admission verdict is
computed from the length of the JSON-stringified header collection by
exactly the two-tier algorithm of the spec — default check first with the
strict comparisons against 1024 and 32768, then the expanded check against
524288, else accepted — and the four policy constants have the fixed
values 1024, 32768, 16384 and 524288. -/
theorem admission_algorithm_matches_spec :
    (∀ h : HeaderCollection,
      handleRequest h = actionOfVerdict (admitSpec ((jsonStringify h).length)))
    ∧ defaultHeaderBufferSize = 1024 ∧ defaultLargeBuffers = 32768
    ∧ fixedHeaderBufferSize = 16384 ∧ fixedLargeBuffers = 524288 := by
  refine ⟨fun h => ?_, rfl, rfl, rfl, rfl⟩
  rw [handleRequest_eq_actionOfVerdict, admit_eq_admitSpec]
  rfl

/-- C2: every header collection serializing to more than 32768 characters
is rejected under the default tier — in particular everything in the range
up to 524288, which the expanded tier alone would accept — and the
RejectedExpanded verdict is unreachable for every size. -/
theorem expanded_tier_shadowed :
    (∀ h : HeaderCollection, headerSize h > 32768 →
        admitVerdict (headerSize h) = AdmissionVerdict.RejectedDefault)
    ∧ (∀ s : Nat, 32768 < s → s ≤ 524288 → admitVerdict s = AdmissionVerdict.RejectedDefault)
    ∧ (∀ s : Nat, admitVerdict s ≠ AdmissionVerdict.RejectedExpanded) := by
  refine ⟨fun h hh => (admit_eq_rejectedDefault_iff _).mpr hh,
    fun s h1 _ => (admit_eq_rejectedDefault_iff s).mpr h1,
    admit_ne_rejectedExpanded⟩

/-- Witness for C2 at a concrete oversized collection and concrete sizes. -/
theorem expanded_tier_shadowed_witness :
    (headerSize [("k", repA 40000)] > 32768
      ∧ admitVerdict (headerSize [("k", repA 40000)]) = AdmissionVerdict.RejectedDefault)
    ∧ (32768 < 40000 ∧ 40000 ≤ 524288 ∧ admitVerdict 40000 = AdmissionVerdict.RejectedDefault)
    ∧ admitVerdict 0 ≠ AdmissionVerdict.RejectedExpanded := by
  have hs : headerSize [("k", repA 40000)] = 40008 := headerSize_repA 40000
  have h1 : headerSize [("k", repA 40000)] > 32768 := by rw [hs]; decide
  exact ⟨⟨h1, expanded_tier_shadowed.1 _ h1⟩,
    ⟨by decide, by decide, expanded_tier_shadowed.2.1 40000 (by decide) (by decide)⟩,
    expanded_tier_shadowed.2.2 0⟩

/-- C4: every header collection of serialized size at most 32768 is
accepted; sizes at most 1024 are always accepted, and the boundary size
32768 is accepted exactly, both rejection comparisons being strict. -/
theorem small_headers_accepted :
    (∀ h : HeaderCollection, headerSize h ≤ 32768 →
        admitVerdict (headerSize h) = AdmissionVerdict.Accepted)
    ∧ (∀ s : Nat, s ≤ 32768 → admitVerdict s = AdmissionVerdict.Accepted)
    ∧ (∀ s : Nat, s ≤ 1024 → admitVerdict s = AdmissionVerdict.Accepted)
    ∧ admitVerdict 32768 = AdmissionVerdict.Accepted := by
  refine ⟨fun h hh => (admit_eq_accepted_iff _).mpr hh,
    fun s hs => (admit_eq_accepted_iff s).mpr hs,
    fun s hs => (admit_eq_accepted_iff s).mpr (by omega),
    (admit_eq_accepted_iff 32768).mpr (by omega)⟩

/-- Witness for C4 at a concrete small collection and the boundary sizes. -/
theorem small_headers_accepted_witness :
    (headerSize [("a", "bb")] ≤ 32768
      ∧ admitVerdict (headerSize [("a", "bb")]) = AdmissionVerdict.Accepted)
    ∧ (32768 ≤ 32768 ∧ admitVerdict 32768 = AdmissionVerdict.Accepted)
    ∧ (1024 ≤ 1024 ∧ admitVerdict 1024 = AdmissionVerdict.Accepted) := by
  have h1 : headerSize [("a", "bb")] ≤ 32768 := by decide
  exact ⟨⟨h1, small_headers_accepted.1 _ h1⟩,
    ⟨by decide, small_headers_accepted.2.1 32768 (by decide)⟩,
    ⟨by decide, small_headers_accepted.2.2.1 1024 (by decide)⟩⟩

/-- C9: the admission check is deterministic and pure — the verdict and
the handler action depend only on the serialized size of the header
collection, so collections of equal size receive identical verdicts, and
the embedding of the check is a pure function of the request. -/
theorem admission_deterministic_pure :
    ∀ h₁ h₂ : HeaderCollection, headerSize h₁ = headerSize h₂ →
      admitVerdict (headerSize h₁) = admitVerdict (headerSize h₂)
      ∧ handleRequest h₁ = handleRequest h₂ := by
  intro h₁ h₂ he
  refine ⟨by rw [he], ?_⟩
  rw [handleRequest_eq_actionOfVerdict, handleRequest_eq_actionOfVerdict, he]

/-- Witness for C9 at two distinct collections of equal serialized size. -/
theorem admission_deterministic_pure_witness :
    headerSize [("a", "bb")] = headerSize [("ab", "b")]
    ∧ admitVerdict (headerSize [("a", "bb")]) = admitVerdict (headerSize [("ab", "b")])
    ∧ handleRequest [("a", "bb")] = handleRequest [("ab", "b")] := by
  have he : headerSize [("a", "bb")] = headerSize [("ab", "b")] := by decide
  exact ⟨he, (admission_deterministic_pure _ _ he).1,
    (admission_deterministic_pure _ _ he).2⟩

/-- C5: for every request whose verdict is a rejection, the relay is never
invoked — the handler answers with a synthetic 400 response instead of the
proxying call, so no byte of a rejected request reaches the backend. -/
theorem rejected_requests_never_relayed :
    ∀ h : HeaderCollection, admitVerdict (headerSize h) ≠ AdmissionVerdict.Accepted →
      handleRequest h ≠ ConnAction.relay
      ∧ ∃ r, handleRequest h = ConnAction.respond r ∧ r.status = 400 := by
  intro h hrej
  rw [handleRequest_eq_actionOfVerdict]
  cases hv : admitVerdict (headerSize h) with
  | Accepted => exact absurd hv hrej
  | RejectedDefault => exact ⟨by simp [actionOfVerdict], resp400Default, rfl, rfl⟩
  | RejectedExpanded => exact ⟨by simp [actionOfVerdict], resp400Expanded, rfl, rfl⟩

/-- Witness for C5 at a concrete rejected request. -/
theorem rejected_requests_never_relayed_witness :
    admitVerdict (headerSize [("k", repA 50000)]) ≠ AdmissionVerdict.Accepted
    ∧ handleRequest [("k", repA 50000)] ≠ ConnAction.relay
    ∧ ∃ r, handleRequest [("k", repA 50000)] = ConnAction.respond r
        ∧ r.status = 400 := by
  have hs : headerSize [("k", repA 50000)] = 50008 := headerSize_repA 50000
  have hrej : admitVerdict (headerSize [("k", repA 50000)]) ≠ AdmissionVerdict.Accepted := by
    rw [hs]; decide
  exact ⟨hrej, (rejected_requests_never_relayed _ hrej).1,
    (rejected_requests_never_relayed _ hrej).2⟩

/-- C6: every rejected request is answered by one of the two fixed 400
responses, both with content type text/html; both bodies contain the
literal title 400 Request Header Or Cookie Too Large and the nginx/1.28.0
footer, and the expanded-tier body carries the reason line suffixed with
the increased-buffers remark. -/
theorem rejection_response_shape :
    (∀ h : HeaderCollection, admitVerdict (headerSize h) ≠ AdmissionVerdict.Accepted →
      handleRequest h = ConnAction.respond resp400Default
        ∨ handleRequest h = ConnAction.respond resp400Expanded)
    ∧ resp400Default.status = 400 ∧ resp400Default.contentType = "text/html"
    ∧ resp400Expanded.status = 400 ∧ resp400Expanded.contentType = "text/html"
    ∧ strContains body400Default "400 Request Header Or Cookie Too Large"
    ∧ strContains body400Default "nginx/1.28.0"
    ∧ strContains body400Expanded "400 Request Header Or Cookie Too Large"
    ∧ strContains body400Expanded
        "Request Header Or Cookie Too Large (even with increased buffers)"
    ∧ strContains body400Expanded "nginx/1.28.0" := by
  refine ⟨fun h hrej => ?_, rfl, rfl, rfl, rfl, ?_, ?_, ?_, ?_, ?_⟩
  · rw [handleRequest_eq_actionOfVerdict]
    cases hv : admitVerdict (headerSize h) with
    | Accepted => exact absurd hv hrej
    | RejectedDefault => exact Or.inl rfl
    | RejectedExpanded => exact Or.inr rfl
  · exact ⟨"<html>\n<head><title>",
      "</title></head>\n<body>\n<center><h1>400 Bad Request</h1></center>\n<center>Request Header Or Cookie Too Large</center>\n<hr><center>nginx/1.28.0</center>\n</body>\n</html>",
      rfl⟩
  · exact ⟨"<html>\n<head><title>400 Request Header Or Cookie Too Large</title></head>\n<body>\n<center><h1>400 Bad Request</h1></center>\n<center>Request Header Or Cookie Too Large</center>\n<hr><center>",
      "</center>\n</body>\n</html>", rfl⟩
  · exact ⟨"<html>\n<head><title>",
      "</title></head>\n<body>\n<center><h1>400 Bad Request</h1></center>\n<center>Request Header Or Cookie Too Large (even with increased buffers)</center>\n<hr><center>nginx/1.28.0</center>\n</body>\n</html>",
      rfl⟩
  · exact ⟨"<html>\n<head><title>400 Request Header Or Cookie Too Large</title></head>\n<body>\n<center><h1>400 Bad Request</h1></center>\n<center>",
      "</center>\n<hr><center>nginx/1.28.0</center>\n</body>\n</html>", rfl⟩
  · exact ⟨"<html>\n<head><title>400 Request Header Or Cookie Too Large</title></head>\n<body>\n<center><h1>400 Bad Request</h1></center>\n<center>Request Header Or Cookie Too Large (even with increased buffers)</center>\n<hr><center>",
      "</center>\n</body>\n</html>", rfl⟩

/-- Witness for C6 at a concrete rejected request. -/
theorem rejection_response_shape_witness :
    admitVerdict (headerSize [("k", repA 60000)]) ≠ AdmissionVerdict.Accepted
    ∧ (handleRequest [("k", repA 60000)] = ConnAction.respond resp400Default
        ∨ handleRequest [("k", repA 60000)] = ConnAction.respond resp400Expanded) := by
  have hs : headerSize [("k", repA 60000)] = 60008 := headerSize_repA 60000
  have hrej : admitVerdict (headerSize [("k", repA 60000)]) ≠ AdmissionVerdict.Accepted := by
    rw [hs]; decide
  exact ⟨hrej, rejection_response_shape.1 _ hrej⟩

/-- C3 counterexample: a WebSocket upgrade request whose handshake headers
the Admission Gate classifies as rejected is nevertheless handed straight
to the relay by the upgrade handler — no synthetic 400 response is
produced and a backend connection is attempted. -/
theorem upgrade_gate_counterexample :
    admitVerdict (headerSize [("k", repA 40000)]) = AdmissionVerdict.RejectedDefault
    ∧ handleUpgrade [("k", repA 40000)] = ConnAction.relay
    ∧ handleUpgrade [("k", repA 40000)] ≠ ConnAction.respond resp400Default
    ∧ handleUpgrade [("k", repA 40000)] ≠ ConnAction.respond resp400Expanded := by
  have hs : headerSize [("k", repA 40000)] = 40008 := headerSize_repA 40000
  refine ⟨by rw [hs]; decide, rfl, by simp [handleUpgrade], by simp [handleUpgrade]⟩

/-- C3 amended: the upgrade handler never runs the Admission Gate — every
upgrade request is relayed to the backend regardless of header size, and
only when the relay reports an error is the client socket silently ended,
never answered with a synthetic 400 response. -/
theorem upgrade_never_gated :
    (∀ h : HeaderCollection, handleUpgrade h = ConnAction.relay)
    ∧ (∀ e : ProxyError, wsErrorCallback e = [ErrorAction.endSocket])
    ∧ (∀ (e : ProxyError) (r : SyntheticResponse),
        ErrorAction.writeResponse r ∉ wsErrorCallback e) := by
  refine ⟨fun _ => rfl, fun _ => rfl, fun e r => ?_⟩
  simp [wsErrorCallback]

/-- C7: on a relay error the HTTP path writes status 502 with content type
text/plain and the exact Bad Gateway body, unconditionally and without
retrying, while the WebSocket path silently ends the client socket,
writing no response at all. -/
theorem backend_unavailable_responses :
    (∀ (e : ProxyError) (hs : Bool),
        proxyWebErrorCallback e hs = [ErrorAction.writeResponse resp502])
    ∧ resp502.status = 502 ∧ resp502.contentType = "text/plain"
    ∧ resp502.body = "Bad Gateway: Could not proxy request"
    ∧ (∀ e : ProxyError, wsErrorCallback e = [ErrorAction.endSocket])
    ∧ (∀ (e : ProxyError) (hs : Bool),
        ErrorAction.invokeRelay ∉ proxyWebErrorCallback e hs)
    ∧ (∀ e : ProxyError, ErrorAction.invokeRelay ∉ wsErrorCallback e)
    ∧ (∀ (e : ProxyError) (r : SyntheticResponse),
        ErrorAction.writeResponse r ∉ wsErrorCallback e) := by
  refine ⟨fun _ _ => rfl, rfl, rfl, rfl, fun _ => rfl, fun e hs => ?_, fun e => ?_,
    fun e r => ?_⟩
  · simp [proxyWebErrorCallback]
  · simp [wsErrorCallback]
  · simp [wsErrorCallback]

/-- C8 counterexample: when response headers were already sent, the
proxy-level error handler takes no action at all — in particular it does
not close the connection itself, contrary to the claimed abrupt close. -/
theorem proxy_error_handler_counterexample :
    proxyOnError "ECONNRESET" (some ⟨true⟩) = ([] : List ErrorAction)
    ∧ ErrorAction.endSocket ∉ proxyOnError "ECONNRESET" (some ⟨true⟩) := by
  refine ⟨rfl, ?_⟩
  simp [proxyOnError]

/-- C8 amended: on an internal relay fault with a client response object
present, the 500 text/plain response is written iff response headers have
not yet been sent; when headers were already sent, or when no response
object exists, the handler writes nothing and performs no action of its
own. -/
theorem proxy_error_handler_amended (e : ProxyError) (r : ResState) :
    (ErrorAction.writeResponse resp500 ∈ proxyOnError e (some r)
      ↔ r.headersSent = false)
    ∧ (r.headersSent = true → proxyOnError e (some r) = [])
    ∧ proxyOnError e none = [] := by
  refine ⟨?_, fun hb => ?_, rfl⟩
  · cases hb : r.headersSent
    · simp [proxyOnError, hb]
    · simp [proxyOnError, hb]
  · simp [proxyOnError, hb]

/-- Witness for C8 amended, at a concrete error with headers not yet sent
and at one with headers already sent. -/
theorem proxy_error_handler_amended_witness :
    ErrorAction.writeResponse resp500 ∈ proxyOnError "ECONNREFUSED" (some ⟨false⟩)
    ∧ (ResState.mk true).headersSent = true
    ∧ proxyOnError "ECONNREFUSED" (some ⟨true⟩) = [] := by
  exact ⟨(proxy_error_handler_amended "ECONNREFUSED" ⟨false⟩).1.mpr rfl, rfl,
    (proxy_error_handler_amended "ECONNREFUSED" ⟨true⟩).2.1 rfl⟩

/-- C10: the error callback of the HTTP proxying call writes the 502
response for every reported error, with no guard on whether response
headers were already sent, whereas the proxy-level error handler writes
its 500 only when a response object exists whose headers were not sent. -/
theorem web_error_callback_unconditional :
    (∀ (e : ProxyError) (hs : Bool),
        proxyWebErrorCallback e hs = [ErrorAction.writeResponse resp502])
    ∧ (∀ (e : ProxyError) (res : Option ResState),
        ErrorAction.writeResponse resp500 ∈ proxyOnError e res →
          ∃ r, res = some r ∧ r.headersSent = false) := by
  refine ⟨fun _ _ => rfl, fun e res hmem => ?_⟩
  cases res with
  | none => simp [proxyOnError] at hmem
  | some r =>
    cases hb : r.headersSent with
    | false => exact ⟨r, rfl, hb⟩
    | true => simp [proxyOnError, hb] at hmem

/-- Witness for C10 at a concrete error, in both callback situations. -/
theorem web_error_callback_unconditional_witness :
    proxyWebErrorCallback "ECONNREFUSED" true = [ErrorAction.writeResponse resp502]
    ∧ ∃ r, (some (ResState.mk false) : Option ResState) = some r
        ∧ r.headersSent = false := by
  refine ⟨web_error_callback_unconditional.1 "ECONNREFUSED" true,
    web_error_callback_unconditional.2 "ECONNREFUSED" (some ⟨false⟩) ?_⟩
  simp [proxyOnError]

end NginxProxySim
